import Mathlib

/-!
Verification of the news-ai-filter pipeline (ingestion → dedup → scoring →
ranking). Python sources are shallowly embedded: pure code is translated
directly; external calls (network, provider, event loop) are modelled as
explicit outcome values of type `Except Unit _`; the sqlite store is an
explicit state value threaded through the pipeline; timestamps are integers
counted in hours.
-/

namespace NewsFilter

/- ## Data model (src/src/models.py) -/

/-- SourceType enum from models.py. -/
inductive SourceType
  | telegram
  | website
  | youtube
deriving DecidableEq, BEq, Repr

/-- ContentCategory enum from models.py (Russian display values elided;
the constructors are in source order). -/
inductive ContentCategory
  | trends
  | channels
  | cases
  | technology
  | research
  | creative
  | other
deriving DecidableEq, BEq, Repr

/-- Source dataclass from models.py. -/
structure Source where
  id : Option Nat
  type : SourceType
  name : String
  url : String
  is_active : Bool
  created_at : Option Int
deriving DecidableEq, Repr

/-- RawContent dataclass from models.py. The free-form `metadata` dict is
carried by collectors but never read by the pipeline logic under
verification, so it is not modelled. -/
structure RawContent where
  source_id : Nat
  source_name : String
  title : String
  content : String
  url : Option String
  published_at : Int
deriving DecidableEq, Repr

/-- ParsedContent dataclass from models.py. -/
structure ParsedContent where
  id : Option Nat
  source_id : Nat
  source_name : String
  title : String
  content : String
  url : Option String
  published_at : Int
  processed_at : Option Int
  is_duplicate : Bool
  is_ad : Bool
deriving DecidableEq, Repr

/-- AnalyzedContent dataclass from models.py. -/
structure AnalyzedContent where
  id : Option Nat
  source_id : Nat
  source_name : String
  title : String
  content : String
  url : Option String
  published_at : Int
  importance_score : Int
  category : ContentCategory
  explanation : String
  processed_at : Option Int
deriving DecidableEq, Repr

/-- DigestItem dataclass from models.py. -/
structure DigestItem where
  title : String
  content : String
  url : Option String
  source : String
  importance_score : Int
  category : ContentCategory
  explanation : String
deriving DecidableEq, Repr

/-- Digest dataclass from models.py. -/
structure Digest where
  id : Option Nat
  user_id : Nat
  title : String
  top_items : List DigestItem
  other_items : List DigestItem
  insights : List String
  created_at : Int
  sent_at : Option Int
deriving DecidableEq, Repr

/- ## String helpers shared by the embedded Python code -/

/-- Python `str.strip()` on a char list: drop whitespace on both ends. -/
def pyStrip (cs : List Char) : List Char :=
  ((cs.dropWhile Char.isWhitespace).reverse.dropWhile Char.isWhitespace).reverse

/-- Value of a decimal digit string, as Python `int` reads it. -/
def natOfDigits (ds : List Char) : Nat :=
  ds.foldl (fun n c => n * 10 + (c.toNat - 48)) 0

/-- Python `needle in hay` substring test on char lists. -/
def containsSub : List Char → List Char → Bool
  | needle, [] => needle.isEmpty
  | needle, c :: cs => needle.isPrefixOf (c :: cs) || containsSub needle cs

/-- Python `str.lower()` restricted to the alphabets the repository uses
(ASCII and Cyrillic). -/
def pyCharLower (c : Char) : Char :=
  if 0x41 ≤ c.toNat && c.toNat ≤ 0x5A then Char.ofNat (c.toNat + 0x20)
  else if 0x410 ≤ c.toNat && c.toNat ≤ 0x42F then Char.ofNat (c.toNat + 0x20)
  else if c.toNat = 0x401 then Char.ofNat 0x451
  else c

/- ## AI analyzer (src/src/analyzers/ai_analyzer.py)

Provider calls are external; each call site receives the call's outcome as
an `Except Unit String` (the response text, or the raised exception). -/

/-- Char list of the score label of the regex `Оценка:\s*(\d+)`. -/
def scoreLabel : List Char := "Оценка:".toList

/-- Char list of the label of the regex `Объяснение:\s*(.+)` (DOTALL). -/
def explLabel : List Char := "Объяснение:".toList

/-- Attempt of the score regex anchored at the head of `cs`: the label,
then greedy whitespace, then at least one digit. -/
def matchScoreAt (cs : List Char) : Option Nat :=
  if scoreLabel.isPrefixOf cs then
    let digits := ((cs.drop scoreLabel.length).dropWhile Char.isWhitespace).takeWhile Char.isDigit
    if digits.isEmpty then none else some (natOfDigits digits)
  else none

/-- `re.search` for `Оценка:\s*(\d+)`: try each start position left to
right, return the first captured number. -/
def searchScore : List Char → Option Nat
  | [] => none
  | c :: cs =>
    match matchScoreAt (c :: cs) with
    | some n => some n
    | none => searchScore cs

/-- Attempt of `Объяснение:\s*(.+)` (DOTALL) anchored at the head of `cs`:
after the label, greedy `\s*` backs off just enough for `.+` to take at
least one char, so on an all-whitespace tail the group is its last char. -/
def matchExplAt (cs : List Char) : Option (List Char) :=
  if explLabel.isPrefixOf cs then
    let rest := cs.drop explLabel.length
    if rest.isEmpty then none
    else
      let after := rest.dropWhile Char.isWhitespace
      if after.isEmpty then
        match rest.getLast? with
        | some c => some [c]
        | none => none
      else some after
  else none

/-- `re.search` for `Объяснение:\s*(.+)` with `re.DOTALL`. -/
def searchExpl : List Char → Option (List Char)
  | [] => none
  | c :: cs =>
    match matchExplAt (c :: cs) with
    | some g => some g
    | none => searchExpl cs

/-- AIAnalyzer._parse_importance_response: parsed score clamped to
`[0,100]`, default 50 when no score is found; explanation stripped,
default placeholder when the label is missing. The method's own
`except` arm (also returning 50) is unreachable: every step here is
total. -/
def parse_importance_response (response : String) : Int × String :=
  (match searchScore response.toList with
   | some score => max 0 (min 100 (score : Int))
   | none => 50,
   match searchExpl response.toList with
   | some g => String.mk (pyStrip g)
   | none => "Нет объяснения")

/-- AIAnalyzer._analyze_importance: parse the provider response; any
provider-call exception degrades to `(50, "Не удалось проанализировать")`. -/
def analyze_importance (providerResp : Except Unit String) : Int × String :=
  match providerResp with
  | .ok result => parse_importance_response result
  | .error _ => (50, "Не удалось проанализировать")

/-- The category_mapping dict of AIAnalyzer._categorize_content. -/
def category_mapping (s : String) : ContentCategory :=
  if s = "Тренды потребления" then ContentCategory.trends
  else if s = "Каналы продвижения" then ContentCategory.channels
  else if s = "Кейсы брендов" then ContentCategory.cases
  else if s = "Маркетинг технологии" then ContentCategory.technology
  else if s = "Исследования рынка" then ContentCategory.research
  else if s = "Реклама и креатив" then ContentCategory.creative
  else ContentCategory.other

/-- AIAnalyzer._categorize_content: map the stripped provider response
through the closed label set; unknown labels and provider exceptions both
give `other`. -/
def categorize_content (providerResp : Except Unit String) : ContentCategory :=
  match providerResp with
  | .ok result => category_mapping (String.mk (pyStrip result.toList))
  | .error _ => ContentCategory.other

/-- Fate of one `analyze_content` call: either both inner provider calls
returned (each with its own `Except` outcome, both of which the inner
methods absorb), or some other step of the method body raised. -/
inductive AnalysisOutcome
  | completed (importanceResp : Except Unit String) (categoryResp : Except Unit String)
  | crashed

/-- AIAnalyzer.analyze_content: build the AnalyzedContent from the two
inner analyses; the catch-all arm returns the item with
`importance_score = 0`, category `other` and a fixed explanation. -/
def analyze_content (c : ParsedContent) (o : AnalysisOutcome) : AnalyzedContent :=
  match o with
  | .completed impResp catResp =>
    { id := c.id
      source_id := c.source_id
      source_name := c.source_name
      title := c.title
      content := c.content
      url := c.url
      published_at := c.published_at
      importance_score := (analyze_importance impResp).1
      category := categorize_content catResp
      explanation := (analyze_importance impResp).2
      processed_at := c.processed_at }
  | .crashed =>
    { id := c.id
      source_id := c.source_id
      source_name := c.source_name
      title := c.title
      content := c.content
      url := c.url
      published_at := c.published_at
      importance_score := 0
      category := ContentCategory.other
      explanation := "Ошибка анализа"
      processed_at := c.processed_at }

/-- AIAnalyzer.analyze_batch: `asyncio.gather(..., return_exceptions=True)`
hands back one outcome per task; the loop keeps results in order and skips
every outcome that is an exception. -/
def analyze_batch : List (Except Unit AnalyzedContent) → List AnalyzedContent
  | [] => []
  | .ok a :: rest => a :: analyze_batch rest
  | .error _ :: rest => analyze_batch rest

/-- The ad_keywords list of AIAnalyzer.check_for_ad_content. -/
def ad_keywords : List String :=
  ["реклама", "промо", "скидка", "акция", "купить",
   "заказать", "партнер", "спонсор", "affiliate"]

/-- AIAnalyzer.check_for_ad_content: case-insensitive keyword match over
`f"{title} {content}"`; pure, no provider call. -/
def check_for_ad_content (title content : String) : Bool :=
  let text_lower := (title ++ " " ++ content).toList.map pyCharLower
  ad_keywords.any (fun k => containsSub k.toList text_lower)

/- ## Digest generator (src/src/digest/digest_generator.py) -/

/-- DigestGenerator._truncate_content. -/
def truncate_content (content : String) (max_length : Nat) : String :=
  if content.length ≤ max_length then content
  else String.mk (content.toList.take max_length) ++ "..."

/-- One insertion step of the stable descending sort
`sorted(content_list, key=lambda x: x.importance_score, reverse=True)`:
`x` goes in front of the first element whose score is not larger, so
equal-score elements keep their original relative order. -/
def insertByImportanceDesc (x : AnalyzedContent) : List AnalyzedContent → List AnalyzedContent
  | [] => [x]
  | y :: ys =>
    if y.importance_score ≤ x.importance_score then x :: y :: ys
    else y :: insertByImportanceDesc x ys

/-- The stable sort of DigestGenerator.generate_digest, descending by
`importance_score` only (Python list sort is stable; `reverse=True`
preserves the original order of equal keys). -/
def sort_by_importance_desc (l : List AnalyzedContent) : List AnalyzedContent :=
  l.foldr insertByImportanceDesc []

/-- Projection of an AnalyzedContent into a DigestItem with the body
truncated to `max_len` chars, as built inline in generate_digest and in
_categorize_remaining_items. -/
def to_digest_item (max_len : Nat) (item : AnalyzedContent) : DigestItem :=
  { title := item.title
    content := truncate_content item.content max_len
    url := item.url
    source := item.source_name
    importance_score := item.importance_score
    category := item.category
    explanation := item.explanation }

/-- DigestGenerator._categorize_remaining_items: keep only items with
score ≥ 30 (projected to 150-char DigestItems, in order), then cap the
result at 15. -/
def categorize_remaining_items (items : List AnalyzedContent) : List DigestItem :=
  ((items.filter (fun i => decide (30 ≤ i.importance_score))).map (to_digest_item 150)).take 15

/-- DigestGenerator.generate_digest. `dateStr` stands for
`datetime.now().strftime('%d.%m.%Y')` and `now` for `datetime.now()`. -/
def generate_digest (content_list : List AnalyzedContent) (insights : List String)
    (user_id : Nat) (dateStr : String) (now : Int) : Digest :=
  let sorted_content := sort_by_importance_desc content_list
  let top_items := (sorted_content.take 5).map (to_digest_item 300)
  let other_items := categorize_remaining_items (sorted_content.drop 5)
  { id := none
    user_id := user_id
    title := "📊 Маркетинг Дайджест — " ++ dateStr
    top_items := top_items
    other_items := other_items
    insights := insights
    created_at := now
    sent_at := none }

/- ## Database manager (src/src/database.py)

The content table is an explicit state: its rows plus the next
autoincrement id. Timestamps are integers in hours, so
`timedelta(hours=h)` is subtraction of `h`. -/

/-- One row of the content table, as written by save_content. -/
structure ContentRow where
  id : Nat
  source_id : Nat
  source_name : String
  title : String
  content : String
  url : Option String
  published_at : Int
  is_duplicate : Bool
  is_ad : Bool
deriving DecidableEq, Repr

/-- The content table of the sqlite database. -/
structure DBState where
  rows : List ContentRow
  next_id : Nat
deriving DecidableEq, Repr

/-- DatabaseManager.check_duplicate: `SELECT COUNT(*) ... WHERE title = ?
AND source_id = ? AND published_at >= ?` with `cutoff = now - hours`,
tested for a positive count. The service calls it with the default
`hours = 24`. -/
def check_duplicate (db : DBState) (title : String) (source_id : Nat)
    (now : Int) (hours : Int) : Bool :=
  let cutoff_time := now - hours
  db.rows.any (fun r =>
    r.title == title && r.source_id == source_id && decide (cutoff_time ≤ r.published_at))

/-- DatabaseManager.save_content: insert a row, return the new state and
the `lastrowid`. -/
def save_content (db : DBState) (c : ParsedContent) : DBState × Nat :=
  let row : ContentRow :=
    { id := db.next_id
      source_id := c.source_id
      source_name := c.source_name
      title := c.title
      content := c.content
      url := c.url
      published_at := c.published_at
      is_duplicate := c.is_duplicate
      is_ad := c.is_ad }
  ({ rows := db.rows ++ [row], next_id := db.next_id + 1 }, db.next_id)

/- ## Collectors (src/src/collectors/)

Each `collect()` body is one big `try` whose failure arm logs and returns
the empty list. The transport/parse work inside the `try` is modelled by
handing the body its fetched data as an `Except Unit _`: `.error` is any
exception raised anywhere inside the `try` block; `.ok` carries what the
external libraries produced, and the pure filtering and item construction
of the body are translated directly. `config.MAX_CONTENT_AGE_HOURS`
defaults to 24 and `config.MAX_CONTENT_LENGTH` to 4000. -/

/-- config.MAX_CONTENT_AGE_HOURS default. -/
def MAX_CONTENT_AGE_HOURS : Int := 24

/-- config.MAX_CONTENT_LENGTH default. -/
def MAX_CONTENT_LENGTH : Nat := 4000

/-- One telethon message as TelegramCollector.collect reads it. -/
structure TgMessage where
  id : Nat
  text : Option String
  date : Int
deriving DecidableEq, Repr

/-- What TelegramCollector.collect fetched: the resolved entity (is it a
Channel, and its username) and the message stream, newest first. -/
structure TgFetch where
  is_channel : Bool
  channel_username : Option String
  messages : List TgMessage
deriving DecidableEq, Repr

/-- TelegramCollector._extract_title: first non-empty line of the stripped
text, truncated to 97 chars plus an ellipsis when longer than 100;
fallback to the first 100 chars of the raw text plus an ellipsis. -/
def extract_title (text : String) : String :=
  let first_line := pyStrip ((pyStrip text.toList).takeWhile (fun c => c ≠ '\n'))
  if 100 < first_line.length then String.mk (first_line.take 97) ++ "..."
  else if first_line.isEmpty then String.mk (text.toList.take 100) ++ "..."
  else String.mk first_line

/-- TelegramCollector.collect: on any exception return `[]`; otherwise
reject non-channels, stop the message walk at the first message older
than `now - MAX_CONTENT_AGE_HOURS` (the `break`), keep messages whose
stripped text is longer than 50 chars, and build one RawContent each. -/
def telegram_collect (fetch : Except Unit TgFetch) (source_id : Nat)
    (source_name : String) (now : Int) : List RawContent :=
  match fetch with
  | .error _ => []
  | .ok f =>
    if !f.is_channel then []
    else
      let cutoff_time := now - MAX_CONTENT_AGE_HOURS
      ((f.messages.takeWhile (fun m => decide (cutoff_time ≤ m.date))).filter
          (fun m =>
            match m.text with
            | some t => decide (50 < (pyStrip t.toList).length)
            | none => false)).map
        (fun m =>
          { source_id := source_id
            source_name := source_name
            title := extract_title ((m.text).getD "")
            content := (m.text).getD ""
            url :=
              match f.channel_username with
              | some u => some ("https://t.me/" ++ u ++ "/" ++ toString m.id)
              | none => none
            published_at := m.date })

/-- One feedparser entry as WebCollector._collect_rss reads it. -/
structure RssEntry where
  published_parsed : Option Int
  updated_parsed : Option Int
  content_value : Option String
  description : Option String
  summary : Option String
  title : Option String
  link : Option String
deriving DecidableEq, Repr

/-- One article as WebCollector._collect_webpage extracts it
(BeautifulSoup selection and text cleanup are the external part). -/
structure PageArticle where
  title : Option String
  content : String
  link : Option String
deriving DecidableEq, Repr

/-- What WebCollector.collect fetched: the URL dispatch picked the RSS or
the webpage branch, with the HTTP status and the parsed payload of that
branch. -/
inductive WebFetchData
  | rss (status : Nat) (entries : List RssEntry)
  | page (status : Nat) (articles : List PageArticle)
deriving DecidableEq, Repr

/-- The content extraction of _collect_rss: entry.content[0].value, else
description, else summary, each through `html_converter.handle` (`conv`),
else the empty string. -/
def rss_entry_content (conv : String → String) (e : RssEntry) : String :=
  match e.content_value with
  | some v => conv v
  | none =>
    match e.description with
    | some d => conv d
    | none =>
      match e.summary with
      | some s => conv s
      | none => ""

/-- WebCollector.collect: on any exception return `[]`; the RSS branch
rejects non-200 responses, skips entries older than the age window
(publish date falling back to update date and then to `now`), skips
entries whose converted content is shorter than 100 stripped chars, and
truncates bodies to MAX_CONTENT_LENGTH; the webpage branch rejects
non-200 responses, skips articles shorter than 200 stripped chars, and
stamps items with `now`. -/
def web_collect (conv : String → String) (fetch : Except Unit WebFetchData)
    (source_id : Nat) (source_name : String) (source_url : String) (now : Int) :
    List RawContent :=
  match fetch with
  | .error _ => []
  | .ok (.rss status entries) =>
    if status ≠ 200 then []
    else
      let cutoff_time := now - MAX_CONTENT_AGE_HOURS
      entries.filterMap (fun e =>
        let published_at :=
          match e.published_parsed with
          | some p => p
          | none =>
            match e.updated_parsed with
            | some u => u
            | none => now
        if published_at < cutoff_time then none
        else
          let content_text := rss_entry_content conv e
          if (pyStrip content_text.toList).length < 100 then none
          else
            some
              { source_id := source_id
                source_name := source_name
                title := (e.title).getD "Без заголовка"
                content := String.mk (content_text.toList.take MAX_CONTENT_LENGTH)
                url := e.link
                published_at := published_at })
  | .ok (.page status articles) =>
    if status ≠ 200 then []
    else
      articles.filterMap (fun a =>
        if (pyStrip a.content.toList).length < 200 then none
        else
          some
            { source_id := source_id
              source_name := source_name
              title :=
                match a.title with
                | some t => t
                | none => "Статья с " ++ source_name
              content := String.mk (a.content.toList.take MAX_CONTENT_LENGTH)
              url :=
                match a.link with
                | some l => some l
                | none => some source_url
              published_at := now })

/-- One video with its summary as YouTubeCollector.collect reads them
(`_get_recent_videos` and `_get_video_summary` both absorb their own
errors, so the summary is always a plain string, possibly empty). -/
structure YtVideo where
  video_id : String
  title : String
  published_at : Int
  summary : String
deriving DecidableEq, Repr

/-- YouTubeCollector.collect: return `[]` when the MCP server URL is not
configured; on any exception return `[]`; otherwise keep videos whose
summary strips to more than 100 chars, truncating bodies to
MAX_CONTENT_LENGTH. -/
def youtube_collect (mcp_configured : Bool) (fetch : Except Unit (List YtVideo))
    (source_id : Nat) (source_name : String) : List RawContent :=
  if !mcp_configured then []
  else
    match fetch with
    | .error _ => []
    | .ok videos =>
      videos.filterMap (fun v =>
        if 100 < (pyStrip v.summary.toList).length then
          some
            { source_id := source_id
              source_name := source_name
              title := v.title
              content := String.mk (v.summary.toList.take MAX_CONTENT_LENGTH)
              url := some ("https://youtube.com/watch?v=" ++ v.video_id)
              published_at := v.published_at }
        else none)

/- ## Digest service (src/src/core/digest_service.py) -/

/-- DigestService._safe_collect: await the collector and convert any
exception into an empty list. The argument is the outcome of the wrapped
`collector.collect()` call. -/
def safe_collect (outcome : Except Unit (List RawContent)) : List RawContent :=
  match outcome with
  | .ok items => items
  | .error _ => []

/-- DigestService._collect_from_all_sources: one `_safe_collect` task per
active source; `asyncio.gather(..., return_exceptions=True)` returns their
results in task order, and the result loop extends `all_content` with each
list (the `isinstance(result, Exception)` arm only logs; it is dead here
because `_safe_collect` already absorbs every `Exception`). -/
def collect_from_all_sources (outcomes : List (Except Unit (List RawContent))) :
    List RawContent :=
  (outcomes.map safe_collect).foldl (fun all_content result => all_content ++ result) []

/-- DigestService._parse_and_filter_content: for each raw item, drop it if
`check_duplicate(title, source_id)` (24-hour default window) holds against
the current table, otherwise build the ParsedContent (with the ad-keyword
flag), save it at once, assign it the returned row id, and keep it. -/
def parse_and_filter_content :
    DBState → Int → List RawContent → List ParsedContent × DBState
  | db, _, [] => ([], db)
  | db, now, item :: rest =>
    if check_duplicate db item.title item.source_id now 24 then
      parse_and_filter_content db now rest
    else
      let parsed0 : ParsedContent :=
        { id := none
          source_id := item.source_id
          source_name := item.source_name
          title := item.title
          content := item.content
          url := item.url
          published_at := item.published_at
          processed_at := some now
          is_duplicate := false
          is_ad := check_for_ad_content item.title item.content }
      let saved := save_content db parsed0
      let parsed_item := { parsed0 with id := some saved.2 }
      let restResult := parse_and_filter_content saved.1 now rest
      (parsed_item :: restResult.1, restResult.2)

/-- DigestService._generate_empty_digest: the fixed "no news" template,
with `dateStr` standing for `datetime.now().strftime('%d\\.%m\\.%Y')`. -/
def generate_empty_digest (dateStr : String) : String :=
  "\n🤖 *Маркетинг Дайджест — " ++ dateStr ++
  "*\n\n😔 Сегодня не найдено новых важных новостей\\. \n\nВозможные причины:\n• Источники временно недоступны\n• Нет новых публикаций за последние 24 часа\n• Все новости оказались неважными \\(< 30 баллов\\)\n\n🔄 Попробуйте команду /digest через час или завтра утром\\!\n        "

/-- What a digest-generation run hands back: either the fixed "no news"
text or the assembled Digest value (whose telegram formatting, file
dump and persistence are delivery effects outside the verified core). -/
inductive DigestPayload
  | noNews (text : String)
  | assembled (digest : Digest)
deriving DecidableEq, Repr

/-- One run's external circumstances: the per-source collect() outcomes,
the database state, the clock, and the per-item fate of the scoring tasks
(`analysis`, the gather outcome of `analyze_content`, which is itself
total given an `AnalysisOutcome`). `insights` is the return of
`generate_insights`, which absorbs its own provider errors and never
raises. -/
structure RunEnv where
  raw_outcomes : List (Except Unit (List RawContent))
  db : DBState
  now : Int
  dateStr : String
  user_id : Nat
  analysis : ParsedContent → Except Unit AnalyzedContent
  insights : List String

/-- DigestService.generate_daily_digest, steps 1–6: collect, return the
fixed empty digest when nothing was collected, parse/dedup, return the
fixed empty digest when nothing survived, otherwise analyze the batch and
assemble the digest. The Bool records whether the digest assembler
(`DigestGenerator.generate_digest`, step 6) was invoked. -/
def generate_daily_digest (env : RunEnv) : DigestPayload × Bool :=
  let raw_content := collect_from_all_sources env.raw_outcomes
  if raw_content.isEmpty then
    (DigestPayload.noNews (generate_empty_digest env.dateStr), false)
  else
    let parsedResult := parse_and_filter_content env.db env.now raw_content
    let parsed_content := parsedResult.1
    if parsed_content.isEmpty then
      (DigestPayload.noNews (generate_empty_digest env.dateStr), false)
    else
      let analyzed_content := analyze_batch (parsed_content.map env.analysis)
      let digest :=
        generate_digest analyzed_content env.insights env.user_id env.dateStr env.now
      (DigestPayload.assembled digest, true)

/- ## Concurrency structure of the two fan-out sites

`_collect_from_all_sources` builds one task per active source (grouped by
type) and `analyze_batch` one task per item, and both launch the whole
list at once with a bare `asyncio.gather` — the repository contains no
semaphore, and `config.CONCURRENT_SOURCES` (default 10) is never read —
so every task's external call can be outstanding simultaneously. -/

/-- The task list built by DigestService._collect_from_all_sources: the
telegram sources, then the web sources, then the youtube sources, one
task each. -/
def collect_tasks (sources : List Source) : List Source :=
  sources.filter (fun s => s.type == SourceType.telegram)
    ++ sources.filter (fun s => s.type == SourceType.website)
    ++ sources.filter (fun s => s.type == SourceType.youtube)

/-- Number of tasks `_collect_from_all_sources` hands to one
`asyncio.gather` call, i.e. its maximum number of simultaneously
outstanding collector calls. -/
def collect_task_count (sources : List Source) : Nat :=
  (collect_tasks sources).length

/-- Number of tasks AIAnalyzer.analyze_batch hands to one
`asyncio.gather` call (one per item), i.e. its maximum number of
simultaneously outstanding provider-call chains. -/
def analyze_batch_task_count (content_list : List ParsedContent) : Nat :=
  content_list.length

/-- config.CONCURRENT_SOURCES: declared in config.py with default 10 but
never referenced by any pipeline code. -/
def CONCURRENT_SOURCES : Nat := 10

/- ## Helper lemmas -/

/-- The score component of the response parser is always in `[0,100]`:
a found score is clamped, a missing one defaults to 50. -/
lemma parse_importance_response_fst_bounds (r : String) :
    0 ≤ (parse_importance_response r).1 ∧ (parse_importance_response r).1 ≤ 100 := by
  unfold parse_importance_response
  cases hs : searchScore r.toList with
  | none => exact ⟨by norm_num, by norm_num⟩
  | some n =>
    refine ⟨le_max_left 0 _, max_le (by norm_num) (min_le_left _ _)⟩

/-- The importance side of `_analyze_importance` is always in `[0,100]`. -/
lemma analyze_importance_fst_bounds (resp : Except Unit String) :
    0 ≤ (analyze_importance resp).1 ∧ (analyze_importance resp).1 ≤ 100 := by
  cases resp with
  | ok r => exact parse_importance_response_fst_bounds r
  | error e => exact ⟨by norm_num [analyze_importance], by norm_num [analyze_importance]⟩

/- ## Claim theorems -/

/-- Claim C1: every scored item the Scorer produces has an integer
importance score in `[0,100]` — the parser defaults to 50 when no score is
found, clamps out-of-range scores, the provider-call failure arm returns
50, and the catch-all arm of per-item analysis returns 0, all within
`[0,100]`. -/
theorem c1_importance_score_in_range (c : ParsedContent) (o : AnalysisOutcome) :
    0 ≤ (analyze_content c o).importance_score ∧
      (analyze_content c o).importance_score ≤ 100 := by
  cases o with
  | crashed => exact ⟨le_refl 0, by norm_num [analyze_content]⟩
  | completed impResp catResp =>
    simpa [analyze_content] using analyze_importance_fst_bounds impResp

/-- Folding list-append from an accumulator is the accumulator followed by
the concatenation. -/
lemma foldl_append_eq_flatten (l : List (List RawContent)) :
    ∀ init : List RawContent,
      l.foldl (fun acc r => acc ++ r) init = init ++ l.flatten := by
  induction l with
  | nil => intro init; simp
  | cons x xs ih => intro init; simp [List.foldl_cons, ih]

/-- A concrete raw item used by the scenario instances. -/
def mk_raw (sid : Nat) (t : String) (p : Int) : RawContent :=
  { source_id := sid, source_name := "s", title := t, content := "content",
    url := none, published_at := p }

/-- Claim C2: the orchestrator returns the concatenation of the items of
every source whose collection succeeded, with failed sources contributing
nothing and no exception escaping (the function is total); in particular
sources returning 2 items, an exception and 4 items yield exactly 6
items. -/
theorem c2_failed_sources_are_isolated :
    (∀ outcomes : List (Except Unit (List RawContent)),
        collect_from_all_sources outcomes
          = (outcomes.filterMap (fun o =>
              match o with
              | Except.ok items => some items
              | Except.error _ => none)).flatten)
    ∧ (collect_from_all_sources
        [Except.ok [mk_raw 1 "a" 0, mk_raw 1 "b" 0],
         Except.error (),
         Except.ok [mk_raw 2 "c" 0, mk_raw 2 "d" 0, mk_raw 2 "e" 0,
                    mk_raw 2 "f" 0]]).length = 6 := by
  constructor
  · intro outcomes
    unfold collect_from_all_sources
    rw [foldl_append_eq_flatten]
    simp only [List.nil_append]
    induction outcomes with
    | nil => rfl
    | cons o rest ih =>
      cases o with
      | ok items => simp [safe_collect, ih]
      | error e => simp [safe_collect, ih]
  · rfl

/-- Inserting one element grows the list by one. -/
lemma length_insertByImportanceDesc (x : AnalyzedContent) (ys : List AnalyzedContent) :
    (insertByImportanceDesc x ys).length = ys.length + 1 := by
  induction ys with
  | nil => rfl
  | cons y ys ih =>
    unfold insertByImportanceDesc
    by_cases h : y.importance_score ≤ x.importance_score
    · simp [h]
    · simp [h, ih]

/-- The stable sort keeps the list length. -/
lemma length_sort_by_importance_desc (l : List AnalyzedContent) :
    (sort_by_importance_desc l).length = l.length := by
  induction l with
  | nil => rfl
  | cons x xs ih =>
    simp [sort_by_importance_desc, List.foldr_cons] at *
    rw [length_insertByImportanceDesc]
    omega

/-- Claim C3: for every input list the assembled digest has exactly
`min 5 (length input)` top items, every other-bucket item scores at least
30, and the other bucket holds at most 15 items. -/
theorem c3_digest_shape (content_list : List AnalyzedContent) (insights : List String)
    (user_id : Nat) (dateStr : String) (now : Int) :
    (generate_digest content_list insights user_id dateStr now).top_items.length
        = min 5 content_list.length
    ∧ (∀ x ∈ (generate_digest content_list insights user_id dateStr now).other_items,
        30 ≤ x.importance_score)
    ∧ (generate_digest content_list insights user_id dateStr now).other_items.length
        ≤ 15 := by
  refine ⟨?_, ?_, ?_⟩
  · simp [generate_digest, List.length_take, length_sort_by_importance_desc]
  · intro x hx
    simp only [generate_digest] at hx
    have hx2 := List.take_subset 15 _ (by simpa [categorize_remaining_items] using hx)
    obtain ⟨a, ha, rfl⟩ := List.mem_map.1 hx2
    have := (List.mem_filter.1 ha).2
    simpa [to_digest_item] using of_decide_eq_true this
  · simp only [generate_digest, categorize_remaining_items]
    exact List.length_take_le 15 _

/-- Claim C4: each of the three collector variants returns the empty list
whenever the transport/parse work inside its `try` block raises, for every
source and every such exception; the functions are total, so no exception
reaches the caller. -/
theorem c4_collect_returns_empty_on_failure (e : Unit) (source_id : Nat)
    (source_name source_url : String) (now : Int) (conv : String → String)
    (mcp_configured : Bool) :
    telegram_collect (Except.error e) source_id source_name now = []
    ∧ web_collect conv (Except.error e) source_id source_name source_url now = []
    ∧ youtube_collect mcp_configured (Except.error e) source_id source_name = [] := by
  refine ⟨rfl, rfl, ?_⟩
  cases mcp_configured with
  | false => rfl
  | true => rfl

/-- A duplicate verdict survives a save: rows are only ever appended. -/
lemma check_duplicate_save_mono (db : DBState) (c : ParsedContent) (t : String)
    (s : Nat) (now hours : Int) (h : check_duplicate db t s now hours = true) :
    check_duplicate (save_content db c).1 t s now hours = true := by
  simp only [save_content, check_duplicate, List.any_append] at *
  rw [h, Bool.true_or]

/-- Once the table holds a matching fingerprint inside the window, no item
of the remaining batch with that fingerprint survives the filter loop. -/
lemma no_survivor_of_dup (now : Int) (t : String) (s : Nat) :
    ∀ (items : List RawContent) (db : DBState),
      check_duplicate db t s now 24 = true →
      (parse_and_filter_content db now items).1.filter
        (fun p => p.title == t && p.source_id == s) = [] := by
  intro items
  induction items with
  | nil => intro db _; simp [parse_and_filter_content]
  | cons item rest ih =>
    intro db hdup
    cases hcd : check_duplicate db item.title item.source_id now 24 with
    | true =>
      simp only [parse_and_filter_content, hcd, if_true]
      exact ih db hdup
    | false =>
      by_cases hts : item.title = t ∧ item.source_id = s
      · exfalso
        rcases hts with ⟨h1, h2⟩
        rw [h1, h2, hdup] at hcd
        exact Bool.true_eq_false.mp hcd
      · have hpred : (item.title == t && item.source_id == s) = false := by
          have hor : ¬ item.title = t ∨ ¬ item.source_id = s := by tauto
          rcases hor with h1 | h1 <;> simp [h1]
        simp only [parse_and_filter_content, hcd, Bool.false_eq_true, if_false,
          List.filter_cons, hpred]
        exact ih _ (check_duplicate_save_mono db _ t s now 24 hdup)

/-- The content-table row a surviving ParsedContent was saved as. -/
def row_of_parsed (p : ParsedContent) : ContentRow :=
  { id := p.id.getD 0
    source_id := p.source_id
    source_name := p.source_name
    title := p.title
    content := p.content
    url := p.url
    published_at := p.published_at
    is_duplicate := p.is_duplicate
    is_ad := p.is_ad }

/-- The filter loop appends exactly one row per surviving item to the
table: dropped items are not saved. -/
lemma parse_and_filter_rows_eq (now : Int) :
    ∀ (items : List RawContent) (db : DBState),
      (parse_and_filter_content db now items).2.rows
        = db.rows ++ (parse_and_filter_content db now items).1.map row_of_parsed := by
  intro items
  induction items with
  | nil => intro db; simp [parse_and_filter_content]
  | cons item rest ih =>
    intro db
    cases hcd : check_duplicate db item.title item.source_id now 24 with
    | true =>
      simp only [parse_and_filter_content, hcd, if_true]
      exact ih db
    | false =>
      simp only [parse_and_filter_content, hcd, Bool.false_eq_true, if_false,
        List.map_cons]
      rw [ih]
      simp [save_content, row_of_parsed]

/-- Claim C5: the dedup step queries the persistence-backed predicate on
`(title, sourceId)` with the 24-hour default window and silently drops the
duplicates: when a matching fingerprint is already persisted inside the
window, at most one (in fact none) of the incoming items with that
fingerprint survives, and the final table is the initial one plus exactly
the survivors — dropped items are never saved. -/
theorem c5_dedup_drops_persisted_duplicates (db : DBState) (now : Int)
    (items : List RawContent) (t : String) (s : Nat)
    (hdup : check_duplicate db t s now 24 = true) :
    ((parse_and_filter_content db now items).1.filter
        (fun p => p.title == t && p.source_id == s)).length ≤ 1
    ∧ (parse_and_filter_content db now items).1.filter
        (fun p => p.title == t && p.source_id == s) = []
    ∧ (parse_and_filter_content db now items).2.rows
        = db.rows ++ (parse_and_filter_content db now items).1.map row_of_parsed := by
  refine ⟨?_, no_survivor_of_dup now t s items db hdup,
    parse_and_filter_rows_eq now items db⟩
  rw [no_survivor_of_dup now t s items db hdup]
  simp

/-- A table already holding the fingerprint `("X", 1)` at hour 100. -/
def dbW : DBState :=
  { rows := [{ id := 1, source_id := 1, source_name := "s", title := "X",
               content := "content", url := none, published_at := 100,
               is_duplicate := false, is_ad := false }],
    next_id := 2 }

/-- Witness for C5: two incoming copies of the already-persisted
fingerprint are both dropped (zero survive, hence at most one). -/
theorem c5_witness :
    check_duplicate dbW "X" 1 100 24 = true
    ∧ (((parse_and_filter_content dbW 100 [mk_raw 1 "X" 100, mk_raw 1 "X" 100]).1.filter
          (fun p => p.title == "X" && p.source_id == 1)).length ≤ 1
      ∧ (parse_and_filter_content dbW 100 [mk_raw 1 "X" 100, mk_raw 1 "X" 100]).1.filter
          (fun p => p.title == "X" && p.source_id == 1) = []
      ∧ (parse_and_filter_content dbW 100 [mk_raw 1 "X" 100, mk_raw 1 "X" 100]).2.rows
          = dbW.rows ++ (parse_and_filter_content dbW 100
              [mk_raw 1 "X" 100, mk_raw 1 "X" 100]).1.map row_of_parsed) :=
  ⟨by decide,
   c5_dedup_drops_persisted_duplicates dbW 100 [mk_raw 1 "X" 100, mk_raw 1 "X" 100]
     "X" 1 (by decide)⟩

/-- Claim C10 as stated is false: when the first of two same-fingerprint
batch items carries a `published_at` older than the 24-hour cutoff, the
row it persists fails the window test of the second item's duplicate
check, and both survive the parse-and-filter step. Here both copies of
fingerprint `("X", 1)` published at hour −100 (window cutoff −24) survive. -/
theorem c10_counterexample :
    ((parse_and_filter_content { rows := [], next_id := 1 } 0
        [mk_raw 1 "X" (-100), mk_raw 1 "X" (-100)]).1.filter
      (fun p => p.title == "X" && p.source_id == 1)).length = 2 := by
  decide

/-- Claim C10 amended: within a single batch whose items all lie inside
the 24-hour window (`now − 24 ≤ published_at`), at most one item per
`(sourceId, title)` fingerprint survives the parse-and-filter step,
because each survivor is saved before the next duplicate check runs. -/
theorem c10_intra_batch_dedup (db : DBState) (now : Int)
    (items : List RawContent) (t : String) (s : Nat)
    (hwin : ∀ i ∈ items, now - 24 ≤ i.published_at) :
    ((parse_and_filter_content db now items).1.filter
        (fun p => p.title == t && p.source_id == s)).length ≤ 1 := by
  induction items generalizing db with
  | nil => simp [parse_and_filter_content]
  | cons item rest ih =>
    have hwin_rest : ∀ i ∈ rest, now - 24 ≤ i.published_at :=
      fun i hi => hwin i (List.mem_cons_of_mem _ hi)
    cases hcd : check_duplicate db item.title item.source_id now 24 with
    | true =>
      simp only [parse_and_filter_content, hcd, if_true]
      exact ih db hwin_rest
    | false =>
      by_cases hts : item.title = t ∧ item.source_id = s
      · rcases hts with ⟨h1, h2⟩
        have hpub : now - 24 ≤ item.published_at := hwin item (List.mem_cons_self item rest)
        have hdup : check_duplicate
            (save_content db
              { id := none, source_id := item.source_id,
                source_name := item.source_name, title := item.title,
                content := item.content, url := item.url,
                published_at := item.published_at, processed_at := some now,
                is_duplicate := false,
                is_ad := check_for_ad_content item.title item.content }).1
            t s now 24 = true := by
          simp [save_content, check_duplicate, List.any_append, h1, h2]
          exact Or.inr (by omega)
        have hrest := no_survivor_of_dup now t s rest _ hdup
        have hpredT : (item.title == t && item.source_id == s) = true := by
          simp [h1, h2]
        simp only [parse_and_filter_content, hcd, Bool.false_eq_true, if_false,
          List.filter_cons, hpredT, if_true]
        rw [hrest]
        simp
      · have hpred : (item.title == t && item.source_id == s) = false := by
          have hor : ¬ item.title = t ∨ ¬ item.source_id = s := by tauto
          rcases hor with h1 | h1 <;> simp [h1]
        simp only [parse_and_filter_content, hcd, Bool.false_eq_true, if_false,
          List.filter_cons, hpred]
        exact ih _ hwin_rest

/-- Witness for the amended C10: a batch of two in-window copies of one
fingerprint keeps at most one of them. -/
theorem c10_witness :
    (∀ i ∈ [mk_raw 1 "X" 0, mk_raw 1 "X" 0], (0 : Int) - 24 ≤ i.published_at)
    ∧ ((parse_and_filter_content { rows := [], next_id := 1 } 0
          [mk_raw 1 "X" 0, mk_raw 1 "X" 0]).1.filter
        (fun p => p.title == "X" && p.source_id == 1)).length ≤ 1 :=
  ⟨by decide,
   c10_intra_batch_dedup { rows := [], next_id := 1 } 0
     [mk_raw 1 "X" 0, mk_raw 1 "X" 0] "X" 1 (by decide)⟩

/-- Claim C6 as stated: in the order the digest assembler uses (the sorted
list that generate_digest slices into top and other items), any two items
with equal importance score appear with the later `publishedAt` first. -/
def published_at_tiebreak_claim : Prop :=
  ∀ l : List AnalyzedContent,
    (sort_by_importance_desc l).Pairwise
      (fun x y => x.importance_score = y.importance_score →
        y.published_at ≤ x.published_at)

/-- A concrete analyzed item used by counterexamples and scenarios. -/
def mk_analyzed (t : String) (score pub : Int) : AnalyzedContent :=
  { id := none, source_id := 1, source_name := "s", title := t,
    content := "content", url := none, published_at := pub,
    importance_score := score, category := ContentCategory.other,
    explanation := "e", processed_at := none }

/-- Counterexample to claim C6: the assembler sorts by importance score
only, with a stable sort; for two items of equal score 50 published at
hours 0 and 10 (arriving in that order), the earlier-published one keeps
the front position, so the later `publishedAt` does not precede. -/
theorem c6_counterexample : ¬ published_at_tiebreak_claim := by
  intro h
  exact absurd (h [mk_analyzed "early" 50 0, mk_analyzed "late" 50 10]) (by decide)

/-- Insertion leaves membership unchanged. -/
lemma mem_insertByImportanceDesc (x z : AnalyzedContent) (ys : List AnalyzedContent) :
    z ∈ insertByImportanceDesc x ys ↔ z = x ∨ z ∈ ys := by
  induction ys with
  | nil => simp [insertByImportanceDesc]
  | cons y ys ih =>
    unfold insertByImportanceDesc
    by_cases h : y.importance_score ≤ x.importance_score
    · simp [h]
    · simp [h, ih]
      tauto

/-- Insertion preserves the descending-by-score invariant. -/
lemma pairwise_insertByImportanceDesc (x : AnalyzedContent) (ys : List AnalyzedContent)
    (h : ys.Pairwise (fun a b => b.importance_score ≤ a.importance_score)) :
    (insertByImportanceDesc x ys).Pairwise
      (fun a b => b.importance_score ≤ a.importance_score) := by
  induction ys with
  | nil => simp [insertByImportanceDesc]
  | cons y ys ih =>
    rcases List.pairwise_cons.1 h with ⟨hy, hys⟩
    unfold insertByImportanceDesc
    by_cases hc : y.importance_score ≤ x.importance_score
    · simp only [if_pos hc]
      refine List.pairwise_cons.2 ⟨?_, h⟩
      intro z hz
      rcases List.mem_cons.1 hz with rfl | hz'
      · exact hc
      · exact le_trans (hy z hz') hc
    · simp only [if_neg hc]
      refine List.pairwise_cons.2 ⟨?_, ih hys⟩
      intro z hz
      rcases (mem_insertByImportanceDesc x z ys).1 hz with rfl | hz'
      · omega
      · exact hy z hz'

/-- The sort output is descending by importance score. -/
lemma sorted_sort_by_importance_desc (l : List AnalyzedContent) :
    (sort_by_importance_desc l).Pairwise
      (fun a b => b.importance_score ≤ a.importance_score) := by
  induction l with
  | nil => simp [sort_by_importance_desc]
  | cons x xs ih =>
    simpa [sort_by_importance_desc] using
      pairwise_insertByImportanceDesc x (sort_by_importance_desc xs)
        (by simpa [sort_by_importance_desc] using ih)

/-- Inserting `x` never moves it past an element of its own score: the
elements the insertion walks over all score strictly higher. -/
lemma filter_insertByImportanceDesc (x : AnalyzedContent) (s : Int)
    (ys : List AnalyzedContent) :
    (insertByImportanceDesc x ys).filter (fun a => a.importance_score == s)
      = if x.importance_score == s
        then x :: ys.filter (fun a => a.importance_score == s)
        else ys.filter (fun a => a.importance_score == s) := by
  induction ys with
  | nil =>
    by_cases hx : (x.importance_score == s) = true <;>
      simp [insertByImportanceDesc, List.filter_cons, hx]
  | cons y ys ih =>
    unfold insertByImportanceDesc
    by_cases hc : y.importance_score ≤ x.importance_score
    · by_cases hx : (x.importance_score == s) = true <;>
        simp [if_pos hc, List.filter_cons, hx]
    · by_cases hx : (x.importance_score == s) = true
      · have hxs : x.importance_score = s := beq_iff_eq.1 hx
        have hy : (y.importance_score == s) = false := by
          have : ¬ y.importance_score = s := by omega
          simp [this]
        simp [if_neg hc, List.filter_cons, hy, ih, hx]
      · have hx' : (x.importance_score == s) = false :=
          Bool.eq_false_iff.2 hx
        simp [if_neg hc, List.filter_cons, ih, hx']

/-- Stability of the sort: for each score the sorted list carries exactly
the input's items of that score, in their original order. -/
lemma filter_sort_by_importance_desc (l : List AnalyzedContent) (s : Int) :
    (sort_by_importance_desc l).filter (fun a => a.importance_score == s)
      = l.filter (fun a => a.importance_score == s) := by
  induction l with
  | nil => rfl
  | cons x xs ih =>
    show (insertByImportanceDesc x (sort_by_importance_desc xs)).filter _ = _
    rw [filter_insertByImportanceDesc]
    by_cases hx : (x.importance_score == s) = true <;>
      simp [hx, ih, List.filter_cons]

/-- Claim C6 amended: the ranking the digest assembler uses is descending
by importance score only, and ties are broken by the stable sort — for
every score the items of that score appear in their arrival order, with
no `publishedAt` secondary key. -/
theorem c6_ranking_is_stable_score_sort (l : List AnalyzedContent) :
    (sort_by_importance_desc l).Pairwise
      (fun a b => b.importance_score ≤ a.importance_score)
    ∧ ∀ s : Int,
        (sort_by_importance_desc l).filter (fun a => a.importance_score == s)
          = l.filter (fun a => a.importance_score == s) :=
  ⟨sorted_sort_by_importance_desc l, fun s => filter_sort_by_importance_desc l s⟩

/-- Claim C7: the batch scorer returns exactly the successfully processed
items — an item is in the output iff its task finished with it, so every
item whose processing raised is absent (not defaulted), the output is the
in-order projection of the successes, and the function is total (no
exception escapes). -/
theorem c7_batch_drops_failed_items (results : List (Except Unit AnalyzedContent)) :
    (∀ a : AnalyzedContent, a ∈ analyze_batch results ↔ Except.ok a ∈ results)
    ∧ analyze_batch results
        = results.filterMap (fun r =>
            match r with
            | Except.ok a => some a
            | Except.error _ => none) := by
  constructor
  · intro a
    induction results with
    | nil => simp [analyze_batch]
    | cons r rest ih =>
      cases r with
      | ok b => simp [analyze_batch, ih]
      | error e => simp [analyze_batch, ih]
  · induction results with
    | nil => rfl
    | cons r rest ih =>
      cases r with
      | ok b => simp [analyze_batch, ih]
      | error e => simp [analyze_batch, ih]

/-- Claim C8: whenever nothing was collected or nothing survived
parsing/dedup, the digest-generation entry point returns the fixed
"no news" payload — a total function, so neither null nor an exception —
and the digest assembler is not invoked (the Bool of the run result). -/
theorem c8_empty_pipeline_yields_no_news_digest (env : RunEnv)
    (h : collect_from_all_sources env.raw_outcomes = []
       ∨ (parse_and_filter_content env.db env.now
            (collect_from_all_sources env.raw_outcomes)).1 = []) :
    generate_daily_digest env
      = (DigestPayload.noNews (generate_empty_digest env.dateStr), false) := by
  rcases h with h | h
  · simp [generate_daily_digest, h]
  · by_cases hr : collect_from_all_sources env.raw_outcomes = []
    · simp [generate_daily_digest, hr]
    · simp [generate_daily_digest, List.isEmpty_iff, hr, h]

/-- A concrete run with no sources at all. -/
def envW : RunEnv :=
  { raw_outcomes := []
    db := { rows := [], next_id := 1 }
    now := 0
    dateStr := "01\\.01\\.2026"
    user_id := 1
    analysis := fun _ => Except.error ()
    insights := [] }

/-- Witness for C8: the empty-collection run returns the fixed "no news"
payload without invoking the assembler. -/
theorem c8_witness :
    (collect_from_all_sources envW.raw_outcomes = []
      ∨ (parse_and_filter_content envW.db envW.now
           (collect_from_all_sources envW.raw_outcomes)).1 = [])
    ∧ generate_daily_digest envW
        = (DigestPayload.noNews (generate_empty_digest envW.dateStr), false) :=
  ⟨Or.inl rfl, c8_empty_pipeline_yields_no_news_digest envW (Or.inl rfl)⟩

/-- A concrete Source of the given type. -/
def mk_source (i : Nat) (ty : SourceType) : Source :=
  { id := some i, type := ty, name := "s", url := "u", is_active := true,
    created_at := none }

/-- Eleven active sources, more than the configured cap. -/
def eleven_sources : List Source :=
  (List.range 11).map (fun i => mk_source (i + 1) SourceType.telegram)

/-- A concrete parsed item for batch-size instances. -/
def pW : ParsedContent :=
  { id := some 1, source_id := 1, source_name := "s", title := "t",
    content := "c", url := none, published_at := 0, processed_at := none,
    is_duplicate := false, is_ad := false }

/-- Claim C9 fails on the code: both fan-out sites hand `asyncio.gather`
one task per source (resp. per item) with no semaphore — the task count,
and so the possible number of simultaneously outstanding external calls,
equals the input size unboundedly, and `config.CONCURRENT_SOURCES`
(default 10) is never consulted: with 11 sources (or an 11-item batch)
the cap the claim asserts is exceeded. -/
theorem c9_fanout_is_unbounded :
    (∀ sources : List Source, collect_task_count sources = sources.length)
    ∧ (∀ content_list : List ParsedContent,
        analyze_batch_task_count content_list = content_list.length)
    ∧ collect_task_count eleven_sources = 11
    ∧ CONCURRENT_SOURCES < collect_task_count eleven_sources
    ∧ analyze_batch_task_count (List.replicate 11 pW) = 11
    ∧ CONCURRENT_SOURCES < analyze_batch_task_count (List.replicate 11 pW) := by
  refine ⟨?_, fun _ => rfl, by decide, by decide, by simp [analyze_batch_task_count], ?_⟩
  · intro sources
    induction sources with
    | nil => rfl
    | cons s rest ih =>
      unfold collect_task_count collect_tasks at *
      simp only [List.length_append] at ih
      cases h : s.type with
      | telegram =>
        simp [List.filter_cons, h,
          show (SourceType.telegram == SourceType.telegram) = true from rfl,
          show (SourceType.telegram == SourceType.website) = false from rfl,
          show (SourceType.telegram == SourceType.youtube) = false from rfl]
        omega
      | website =>
        simp [List.filter_cons, h,
          show (SourceType.website == SourceType.telegram) = false from rfl,
          show (SourceType.website == SourceType.website) = true from rfl,
          show (SourceType.website == SourceType.youtube) = false from rfl]
        omega
      | youtube =>
        simp [List.filter_cons, h,
          show (SourceType.youtube == SourceType.telegram) = false from rfl,
          show (SourceType.youtube == SourceType.website) = false from rfl,
          show (SourceType.youtube == SourceType.youtube) = true from rfl]
        omega
  · simp [analyze_batch_task_count, CONCURRENT_SOURCES]

end NewsFilter
